import Mathlib

/-!
Verification of the wave-propagation engine (`WaveManager`) of the
stadium-simulator repository.

The definitions below are a shallow embedding of the TypeScript class
`WaveManager`: the mutable object becomes an explicit state record
(`WMState`), every method becomes a pure state-transforming function, and
JavaScript numbers become exact rationals (`ℚ`).  The asynchronous
`sectionWave` handshake of `propagateWave` (the scene computes participation
and commits a classification back through the manager's public setters) is
modelled by an explicit environment function `env : ℕ → WMState → WMState`
applied at the suspension point; theorems about propagation take hypotheses
describing what the real collaborator does through that narrow API.
-/

/-- Section/column outcome classification: `'success' | 'sputter' | 'death'`. -/
inductive SectionState where
  | success
  | sputter
  | death
deriving DecidableEq, Repr

/-- Booster kinds that map to `gameBalance.waveClassification.boosterPercents`
(`'momentum' | 'recovery' | 'participation'`); the manager's `lastBoosterType`
field additionally admits `'none'`, modelled as `Option BoosterKind` with
`none`. -/
inductive BoosterKind where
  | momentum
  | recovery
  | participation
deriving DecidableEq, Repr

/-- One entry of `waveResults`: `{ section, success, chance }`.  The source
field `section` is a Lean keyword, hence `sectionId`. -/
structure WaveResult where
  sectionId : String
  success : Bool
  chance : ℚ
deriving DecidableEq, Repr

/-- One entry of `waveCalculationResults` (interface `WaveCalculationResult`). -/
structure WaveCalcResult where
  sectionId : String
  columnIndex : ℕ
  participationRate : ℚ
  strength : ℚ
  columnState : SectionState
deriving DecidableEq, Repr

/-- One entry of `columnStateRecords`. -/
structure ColumnRecord where
  sectionId : String
  columnIndex : ℕ
  participation : ℚ
  state : SectionState
deriving DecidableEq, Repr

/-- Modelled from the spec: the `gameBalance` configuration module
(`@/config/gameBalance`) is not among the available sources, so the
configuration constants `WaveManager` reads are kept abstract in a record:
`waveTiming.triggerCountdown`, `waveStrength.starting`, and
`waveClassification.boosterPercents`. -/
structure GameBalance where
  triggerCountdown : ℚ
  waveStrengthStarting : ℚ
  boosterPercents : BoosterKind → ℚ

/-- Modelled from the spec: a concrete configuration for witnesses.  The
spec's transition-table scenarios and the architecture document's testing
scenarios both start a wave at strength 50 (`50 → 55 → 60`); the countdown
and booster percentages are unconstrained sample values. -/
def sampleBalance : GameBalance where
  triggerCountdown := 10000
  waveStrengthStarting := 50
  boosterPercents := fun _ => 1/4

/-- The mutable fields of the `WaveManager` class. -/
structure WMState where
  countdown : ℚ
  active : Bool
  currentSection : ℕ
  score : ℤ
  multiplier : ℚ
  waveResults : List WaveResult
  propagating : Bool
  waveSputterActive : Bool
  waveSputterColumnsRemaining : ℤ
  currentWaveStrength : ℚ
  waveCalculationResults : List WaveCalcResult
  consecutiveFailedColumns : ℕ
  lastSectionWaveState : Option SectionState
  lastColumnParticipationRate : ℚ
  lastBoosterType : Option BoosterKind
  forceSputterNextSection : Bool
  forceDeathNextSection : Bool
  waveBoosterMultiplier : ℚ
  lastTwoColumnParticipation : List ℚ
  columnStateRecords : List ColumnRecord
deriving DecidableEq, Repr

/-- The constructor of `WaveManager` (fields only; collaborator references
are omitted). -/
def initialState (cfg : GameBalance) : WMState where
  countdown := cfg.triggerCountdown / 1000
  active := false
  currentSection := 0
  score := 0
  multiplier := 1
  waveResults := []
  propagating := false
  waveSputterActive := false
  waveSputterColumnsRemaining := 0
  currentWaveStrength := cfg.waveStrengthStarting
  waveCalculationResults := []
  consecutiveFailedColumns := 0
  lastSectionWaveState := none
  lastColumnParticipationRate := 0
  lastBoosterType := none
  forceSputterNextSection := false
  forceDeathNextSection := false
  waveBoosterMultiplier := 1
  lastTwoColumnParticipation := []
  columnStateRecords := []

/-- The clamp `Math.max(0, Math.min(100, x))` used by every strength mutation. -/
def clampStrength (x : ℚ) : ℚ := max 0 (min 100 x)

/-- Method `setWaveStrength(value)`: debug override, clamped to [0,100]. -/
def setWaveStrength (value : ℚ) (s : WMState) : WMState :=
  { s with currentWaveStrength := clampStrength value }

/-- Method `applyWaveBooster(type)`: looks up the percent in the
configuration and sets `waveBoosterMultiplier = 1 + percent`, replacing any
prior booster (non-stacking), and records the booster kind. -/
def applyWaveBooster (cfg : GameBalance) (type : BoosterKind) (s : WMState) : WMState :=
  { s with
    waveBoosterMultiplier := 1 + cfg.boosterPercents type
    lastBoosterType := some type }

/-- Method `clearWaveBooster()`. -/
def clearWaveBooster (s : WMState) : WMState :=
  { s with waveBoosterMultiplier := 1, lastBoosterType := none }

/-- Method `setLastSectionWaveState(state)`. -/
def setLastSectionWaveState (st : Option SectionState) (s : WMState) : WMState :=
  { s with lastSectionWaveState := st }

/-- The momentum factor computed at the top of `adjustWaveStrength`:
`this.waveBoosterMultiplier && this.waveBoosterMultiplier > 1 ?
this.waveBoosterMultiplier : 1`.  The JavaScript truthiness conjunct is
redundant (a falsy multiplier `0` fails `> 1` anyway), so the factor is the
multiplier exactly when it exceeds 1, else 1 — for any booster kind. -/
def momentumBoost (s : WMState) : ℚ :=
  if 1 < s.waveBoosterMultiplier then s.waveBoosterMultiplier else 1

/-- Method `adjustWaveStrength(currentState, participationRate)`: the
asymmetric transition table keyed on `lastSectionWaveState`, with a final
clamp of the stored strength to [0,100]. -/
def adjustWaveStrength (currentState : SectionState) (participationRate : ℚ)
    (s : WMState) : WMState :=
  let lastState := s.lastSectionWaveState
  let str :=
    if lastState = some SectionState.success then
      if currentState = SectionState.success then
        min 100 (s.currentWaveStrength + 5 * momentumBoost s)
      else if currentState = SectionState.sputter then
        max 0 (s.currentWaveStrength - 15)
      else
        max 0 (s.currentWaveStrength - 30)
    else if lastState = some SectionState.sputter then
      if participationRate ≥ 0.6 then
        min 100 (s.currentWaveStrength + 10 * momentumBoost s)
      else if participationRate ≥ 0.4 ∧ participationRate < 0.6 then
        max 0 (s.currentWaveStrength - 8)
      else if participationRate < 0.4 then
        max 0 (s.currentWaveStrength - 25)
      else
        s.currentWaveStrength
    else if lastState = some SectionState.death then
      if participationRate ≥ 0.6 then
        min 100 (s.currentWaveStrength + 15 * momentumBoost s)
      else if participationRate ≥ 0.4 then
        max 0 (s.currentWaveStrength - 10)
      else
        max 0 (s.currentWaveStrength - 5)
    else
      s.currentWaveStrength
  { s with currentWaveStrength := clampStrength str }

/-- Method `startWave()`: sets the wave active, resets countdown, section
index, strength, calculation results, the consecutive-failure counter and
the sputter state.  It touches no other field. -/
def startWave (cfg : GameBalance) (s : WMState) : WMState :=
  { s with
    active := true
    countdown := cfg.triggerCountdown / 1000
    currentSection := 0
    currentWaveStrength := cfg.waveStrengthStarting
    waveCalculationResults := []
    consecutiveFailedColumns := 0
    waveSputterActive := false
    waveSputterColumnsRemaining := 0 }

/-- The section labels `['A', 'B', 'C']` indexed by loop counter. -/
def sectionName (i : ℕ) : String :=
  if i = 0 then "A" else if i = 1 then "B" else "C"

/-- One iteration of the `for` loop in `propagateWave`.  The accumulator
carries the state and the loop-local `hasFailedOnce` flag; `if acc.2 then
acc` models the `if (hasFailedOnce) break;` at the top of the loop body, and
`env i` models the awaited `sectionWave` handshake in which the scene acts
on the manager through its public API. -/
def propagateStep (env : ℕ → WMState → WMState) (acc : WMState × Bool)
    (i : ℕ) : WMState × Bool :=
  if acc.2 then acc
  else
    let s0 := env i acc.1
    let sectionState := s0.lastSectionWaveState
    let s1 := { s0 with waveResults := s0.waveResults ++
      [{ sectionId := sectionName i
         success := decide (sectionState = some SectionState.success)
         chance := 0 }] }
    let s2 :=
      if sectionState = some SectionState.death then { s1 with multiplier := 1 }
      else s1
    let failed := acc.2 || decide (sectionState = some SectionState.death)
    let s3 :=
      if sectionState = some SectionState.success ∧ failed = false then
        { s2 with score := s2.score + 100 }
      else s2
    (s3, failed)

/-- Method `propagateWave()`: guarded against re-entry by `propagating`,
clears the two result lists, runs the three-section loop, then marks the
wave complete. -/
def propagateWave (env : ℕ → WMState → WMState) (s : WMState) : WMState :=
  if s.propagating then s
  else
    let s1 := { s with propagating := true, waveResults := [],
                       waveCalculationResults := [] }
    let p := [0, 1, 2].foldl (propagateStep env) (s1, false)
    { p.1 with active := false, propagating := false }

/-- Modelled from the spec: the asymmetric transition table of §4.2, as a
pure delta.  Rows keyed on `lastState`; the `success` row is state-driven,
the `sputter` and `death` rows are participation-rate-driven; `m` is the
momentum multiplier applied to the three positive deltas. -/
def specTransitionDelta (last current : SectionState) (rate m : ℚ) : ℚ :=
  match last with
  | SectionState.success =>
      match current with
      | SectionState.success => 5 * m
      | SectionState.sputter => -15
      | SectionState.death => -30
  | SectionState.sputter =>
      if rate ≥ 0.6 then 10 * m
      else if rate ≥ 0.4 then -8
      else -25
  | SectionState.death =>
      if rate ≥ 0.6 then 15 * m
      else if rate ≥ 0.4 then -10
      else -5

/-- An inner `min 100` is absorbed by the final clamp. -/
theorem clampStrength_min (x : ℚ) : clampStrength (min 100 x) = clampStrength x := by
  unfold clampStrength
  rw [← min_assoc, min_self]

/-- An inner `max 0` is absorbed by the final clamp. -/
theorem clampStrength_max (x : ℚ) : clampStrength (max 0 x) = clampStrength x := by
  unfold clampStrength
  rw [min_max_distrib_left, show (100 : ℚ) ⊓ 0 = 0 by norm_num, ← max_assoc, max_self]

/-- A subtraction under the code-side clamp matches a negative delta under
the spec-side clamp. -/
theorem clampStrength_sub (a d : ℚ) :
    clampStrength (max 0 (a - d)) = clampStrength (a + -d) := by
  rw [show a + -d = a - d by ring, clampStrength_max]

/-- C1: with a non-null previous section state and a current strength in
[0,100], `adjustWaveStrength` stores exactly the old strength plus the
spec's transition-table delta (at the momentum factor the code computes),
clamped to [0,100]. -/
theorem adjustWaveStrength_matches_spec_table (s : WMState)
    (last current : SectionState) (rate : ℚ)
    (hlast : s.lastSectionWaveState = some last)
    (h0 : 0 ≤ s.currentWaveStrength) (h1 : s.currentWaveStrength ≤ 100) :
    (adjustWaveStrength current rate s).currentWaveStrength
      = clampStrength
          (s.currentWaveStrength
            + specTransitionDelta last current rate (momentumBoost s)) := by
  cases last with
  | success =>
    cases current with
    | success =>
      simp only [adjustWaveStrength, specTransitionDelta, hlast, Option.some.injEq,
        reduceCtorEq, if_true, if_false, ite_true, ite_false]
      exact clampStrength_min _
    | sputter =>
      simp only [adjustWaveStrength, specTransitionDelta, hlast, Option.some.injEq,
        reduceCtorEq, if_true, if_false, ite_true, ite_false]
      exact clampStrength_sub _ 15
    | death =>
      simp only [adjustWaveStrength, specTransitionDelta, hlast, Option.some.injEq,
        reduceCtorEq, if_true, if_false, ite_true, ite_false]
      exact clampStrength_sub _ 30
  | sputter =>
    simp only [adjustWaveStrength, specTransitionDelta, hlast, Option.some.injEq,
      reduceCtorEq, if_true, if_false, ite_true, ite_false, ge_iff_le]
    by_cases h6 : (0.6 : ℚ) ≤ rate
    · simp only [h6, ite_true]
      exact clampStrength_min _
    · by_cases h4 : (0.4 : ℚ) ≤ rate
      · have hlt : rate < (0.6 : ℚ) := lt_of_not_le h6
        simp only [h6, h4, hlt, and_true, ite_true, ite_false]
        exact clampStrength_sub _ 8
      · have hlt : rate < (0.4 : ℚ) := lt_of_not_le h4
        simp only [h6, h4, hlt, false_and, ite_true, ite_false]
        exact clampStrength_sub _ 25
  | death =>
    simp only [adjustWaveStrength, specTransitionDelta, hlast, Option.some.injEq,
      reduceCtorEq, if_true, if_false, ite_true, ite_false, ge_iff_le]
    by_cases h6 : (0.6 : ℚ) ≤ rate
    · simp only [h6, ite_true]
      exact clampStrength_min _
    · by_cases h4 : (0.4 : ℚ) ≤ rate
      · simp only [h6, h4, ite_true, ite_false]
        exact clampStrength_sub _ 10
      · simp only [h6, h4, ite_true, ite_false]
        exact clampStrength_sub _ 5

/-- Witness for C1 at a concrete state: strength 50, previous state
`success`, current `success`, neutral booster. -/
theorem adjustWaveStrength_matches_spec_table_witness :
    (adjustWaveStrength SectionState.success (7/10)
        { initialState sampleBalance with
            lastSectionWaveState := some SectionState.success }).currentWaveStrength
      = clampStrength
          ({ initialState sampleBalance with
              lastSectionWaveState := some SectionState.success }.currentWaveStrength
            + specTransitionDelta SectionState.success SectionState.success (7/10)
                (momentumBoost
                  { initialState sampleBalance with
                      lastSectionWaveState := some SectionState.success })) :=
  adjustWaveStrength_matches_spec_table _ SectionState.success SectionState.success
    (7/10) rfl (by norm_num [initialState, sampleBalance])
    (by norm_num [initialState, sampleBalance])

/-- C7: when `lastSectionWaveState` is null, `adjustWaveStrength` is an
identity operation for every current state, participation rate and booster
state — no transition-table row fires, and the final clamp fixes a strength
already in [0,100], leaving the whole manager state unchanged. -/
theorem adjustWaveStrength_null_identity (current : SectionState) (rate : ℚ)
    (s : WMState) (hlast : s.lastSectionWaveState = none)
    (h0 : 0 ≤ s.currentWaveStrength) (h1 : s.currentWaveStrength ≤ 100) :
    adjustWaveStrength current rate s = s := by
  have hclamp : clampStrength s.currentWaveStrength = s.currentWaveStrength := by
    unfold clampStrength
    rw [min_eq_right h1, max_eq_right h0]
  simp only [adjustWaveStrength, hlast, reduceCtorEq, if_false, ite_false, hclamp]
  rw [← hlast]

/-- Witness for C7: the freshly constructed manager (null last state,
strength 50) is left untouched by a call with a `success` classification. -/
theorem adjustWaveStrength_null_identity_witness :
    adjustWaveStrength SectionState.success (1/2) (initialState sampleBalance)
      = initialState sampleBalance :=
  adjustWaveStrength_null_identity SectionState.success (1/2)
    (initialState sampleBalance) rfl
    (by norm_num [initialState, sampleBalance])
    (by norm_num [initialState, sampleBalance])

/-- A strength-mutation sequence: the two strength mutators of the claim
(`adjustStrength`, `setStrength`) together with the state setters the scene
interleaves between them (last-state commits, booster changes), which is
what makes the different transition-table rows reachable. -/
inductive StrengthOp where
  | adjust (currentState : SectionState) (participationRate : ℚ)
  | set (value : ℚ)
  | setLastState (st : Option SectionState)
  | booster (kind : BoosterKind)
  | clearBooster

/-- Interpretation of one `StrengthOp` as the corresponding method call. -/
def applyOp (cfg : GameBalance) (s : WMState) : StrengthOp → WMState
  | StrengthOp.adjust c r => adjustWaveStrength c r s
  | StrengthOp.set v => setWaveStrength v s
  | StrengthOp.setLastState st => setLastSectionWaveState st s
  | StrengthOp.booster k => applyWaveBooster cfg k s
  | StrengthOp.clearBooster => clearWaveBooster s

/-- Run a sequence of mutations from the freshly constructed manager. -/
def runOps (cfg : GameBalance) (ops : List StrengthOp) : WMState :=
  ops.foldl (applyOp cfg) (initialState cfg)

/-- The clamp lands in [0,100]. -/
theorem clampStrength_mem (x : ℚ) :
    0 ≤ clampStrength x ∧ clampStrength x ≤ 100 := by
  unfold clampStrength
  refine ⟨le_max_left 0 _, max_le (by norm_num) (min_le_left 100 x)⟩

/-- Every `StrengthOp` leaves an in-range strength in range; the two real
mutators even re-establish the range unconditionally, since both clamp. -/
theorem applyOp_strength_range (cfg : GameBalance) (s : WMState)
    (op : StrengthOp)
    (h : 0 ≤ s.currentWaveStrength ∧ s.currentWaveStrength ≤ 100) :
    0 ≤ (applyOp cfg s op).currentWaveStrength
      ∧ (applyOp cfg s op).currentWaveStrength ≤ 100 := by
  cases op with
  | adjust c r => exact clampStrength_mem _
  | set v => exact clampStrength_mem _
  | setLastState st => exact h
  | booster k => exact h
  | clearBooster => exact h

/-- C2: for every sequence of strength mutations starting from a configured
initial strength in [0,100], the stored wave strength never leaves [0,100]. -/
theorem runOps_strength_in_range (cfg : GameBalance)
    (hc0 : 0 ≤ cfg.waveStrengthStarting) (hc1 : cfg.waveStrengthStarting ≤ 100)
    (ops : List StrengthOp) :
    0 ≤ (runOps cfg ops).currentWaveStrength
      ∧ (runOps cfg ops).currentWaveStrength ≤ 100 := by
  have general : ∀ (l : List StrengthOp) (t : WMState),
      0 ≤ t.currentWaveStrength ∧ t.currentWaveStrength ≤ 100 →
      0 ≤ (l.foldl (applyOp cfg) t).currentWaveStrength
        ∧ (l.foldl (applyOp cfg) t).currentWaveStrength ≤ 100 := by
    intro l
    induction l with
    | nil => intro t ht; exact ht
    | cons op rest ih =>
        intro t ht
        exact ih (applyOp cfg t op) (applyOp_strength_range cfg t op ht)
  exact general ops (initialState cfg) ⟨hc0, hc1⟩

/-- Witness for C2: a concrete mixed sequence from the sample configuration,
driving the table through success, an overflowing debug override, and a
death-row penalty. -/
theorem runOps_strength_in_range_witness :
    0 ≤ (runOps sampleBalance
          [StrengthOp.setLastState (some SectionState.success),
           StrengthOp.adjust SectionState.success (7/10),
           StrengthOp.set 250,
           StrengthOp.setLastState (some SectionState.death),
           StrengthOp.booster BoosterKind.momentum,
           StrengthOp.adjust SectionState.sputter (1/10)]).currentWaveStrength
      ∧ (runOps sampleBalance
          [StrengthOp.setLastState (some SectionState.success),
           StrengthOp.adjust SectionState.success (7/10),
           StrengthOp.set 250,
           StrengthOp.setLastState (some SectionState.death),
           StrengthOp.booster BoosterKind.momentum,
           StrengthOp.adjust SectionState.sputter (1/10)]).currentWaveStrength ≤ 100 :=
  runOps_strength_in_range sampleBalance (by norm_num [sampleBalance])
    (by norm_num [sampleBalance]) _

/-- C4 counterexample: a manager that ended its previous wave with a
`success` last state and a non-empty results list keeps both across
`startWave()` — the method resets neither field. -/
theorem startWave_reset_counterexample :
    ¬ (((startWave sampleBalance
          { initialState sampleBalance with
              lastSectionWaveState := some SectionState.success
              waveResults :=
                [{ sectionId := "A", success := true, chance := 0 }] }).lastSectionWaveState
            = none)
        ∧ (startWave sampleBalance
            { initialState sampleBalance with
                lastSectionWaveState := some SectionState.success
                waveResults :=
                  [{ sectionId := "A", success := true, chance := 0 }] }).waveResults
            = []) := by
  simp [startWave]

/-- C4 amended: `startWave()` resets strength to the configured starting
value, the section index to 0, the countdown, the consecutive-failure
counter, the sputter state and the calculation results, and marks the wave
active — but `lastSectionWaveState` and `waveResults` retain their prior
values (they are cleared only at the start of the next propagation). -/
theorem startWave_resets (cfg : GameBalance) (s : WMState) :
    (startWave cfg s).currentWaveStrength = cfg.waveStrengthStarting
      ∧ (startWave cfg s).currentSection = 0
      ∧ (startWave cfg s).active = true
      ∧ (startWave cfg s).countdown = cfg.triggerCountdown / 1000
      ∧ (startWave cfg s).consecutiveFailedColumns = 0
      ∧ (startWave cfg s).waveSputterActive = false
      ∧ (startWave cfg s).waveCalculationResults = []
      ∧ (startWave cfg s).lastSectionWaveState = s.lastSectionWaveState
      ∧ (startWave cfg s).waveResults = s.waveResults := by
  simp [startWave]

/-- C8: boosters replace, never stack — after applying booster `A` and then
booster `B`, the multiplier is `1 + percent(B)`, identical to applying `B`
alone. -/
theorem applyWaveBooster_non_stacking (cfg : GameBalance) (s : WMState)
    (A B : BoosterKind) :
    (applyWaveBooster cfg B (applyWaveBooster cfg A s)).waveBoosterMultiplier
        = 1 + cfg.boosterPercents B
      ∧ (applyWaveBooster cfg B (applyWaveBooster cfg A s)).waveBoosterMultiplier
        = (applyWaveBooster cfg B s).waveBoosterMultiplier := by
  simp [applyWaveBooster]

/-- C10: `startWave()` leaves `score` and `multiplier` unchanged; the
constructor is the only place the score starts at 0 and the multiplier at
1.0. -/
theorem startWave_preserves_score_multiplier (cfg : GameBalance) (s : WMState) :
    (startWave cfg s).score = s.score
      ∧ (startWave cfg s).multiplier = s.multiplier
      ∧ (initialState cfg).score = 0
      ∧ (initialState cfg).multiplier = 1 := by
  simp [startWave, initialState]

/-- C6: for every booster kind – momentum, recovery or participation alike –
an `adjustStrength` call after `applyWaveBooster` multiplies the positive
table deltas (+5, +10, +15) by the booster's multiplier `1 + percent`
whenever that multiplier exceeds 1, and by 1 otherwise; the stored booster
kind plays no role in the factor. -/
theorem momentum_factor_ignores_booster_kind (cfg : GameBalance)
    (k : BoosterKind) (s : WMState) (rate : ℚ) :
    (s.lastSectionWaveState = some SectionState.success →
      (adjustWaveStrength SectionState.success rate
          (applyWaveBooster cfg k s)).currentWaveStrength
        = clampStrength (s.currentWaveStrength
            + 5 * (if 1 < 1 + cfg.boosterPercents k
                   then 1 + cfg.boosterPercents k else 1)))
    ∧ (s.lastSectionWaveState = some SectionState.sputter → (0.6 : ℚ) ≤ rate →
      (adjustWaveStrength SectionState.sputter rate
          (applyWaveBooster cfg k s)).currentWaveStrength
        = clampStrength (s.currentWaveStrength
            + 10 * (if 1 < 1 + cfg.boosterPercents k
                    then 1 + cfg.boosterPercents k else 1)))
    ∧ (s.lastSectionWaveState = some SectionState.death → (0.6 : ℚ) ≤ rate →
      (adjustWaveStrength SectionState.death rate
          (applyWaveBooster cfg k s)).currentWaveStrength
        = clampStrength (s.currentWaveStrength
            + 15 * (if 1 < 1 + cfg.boosterPercents k
                    then 1 + cfg.boosterPercents k else 1))) := by
  refine ⟨fun hlast => ?_, fun hlast h6 => ?_, fun hlast h6 => ?_⟩
  · simp only [adjustWaveStrength, momentumBoost, applyWaveBooster, hlast,
      Option.some.injEq, reduceCtorEq, if_true, if_false, ite_true, ite_false]
    exact clampStrength_min _
  · simp only [adjustWaveStrength, momentumBoost, applyWaveBooster, hlast,
      Option.some.injEq, reduceCtorEq, if_true, if_false, ite_true, ite_false,
      ge_iff_le, h6]
    exact clampStrength_min _
  · simp only [adjustWaveStrength, momentumBoost, applyWaveBooster, hlast,
      Option.some.injEq, reduceCtorEq, if_true, if_false, ite_true, ite_false,
      ge_iff_le, h6]
    exact clampStrength_min _

/-- Witness for C6: a `recovery` booster at the sample percentage still
scales the success-row +5 delta. -/
theorem momentum_factor_ignores_booster_kind_witness :
    (adjustWaveStrength SectionState.success (7/10)
        (applyWaveBooster sampleBalance BoosterKind.recovery
          { initialState sampleBalance with
              lastSectionWaveState := some SectionState.success })).currentWaveStrength
      = clampStrength
          ({ initialState sampleBalance with
              lastSectionWaveState := some SectionState.success }.currentWaveStrength
            + 5 * (if 1 < 1 + sampleBalance.boosterPercents BoosterKind.recovery
                   then 1 + sampleBalance.boosterPercents BoosterKind.recovery
                   else 1)) :=
  (momentum_factor_ignores_booster_kind sampleBalance BoosterKind.recovery
    { initialState sampleBalance with
        lastSectionWaveState := some SectionState.success } (7/10)).1 rfl

/-- C9: invoking `propagateWave` while a propagation is already in progress
is a silent no-op — the guard returns the state entirely unchanged, for any
collaborator behavior. -/
theorem propagateWave_reentrant_noop (env : ℕ → WMState → WMState)
    (s : WMState) (h : s.propagating = true) :
    propagateWave env s = s := by
  simp [propagateWave, h]

/-- Witness for C9: a mid-propagation manager state is returned untouched. -/
theorem propagateWave_reentrant_noop_witness :
    propagateWave (fun _ t => t)
        { initialState sampleBalance with propagating := true }
      = { initialState sampleBalance with propagating := true } :=
  propagateWave_reentrant_noop (fun _ t => t)
    { initialState sampleBalance with propagating := true } rfl

/-- C3 counterexample: with the scene classifying section A as `death` (the
collaborator commits it through `setLastSectionWaveState` during the
handshake), the completed propagation has recorded one result, not one per
section — the loop's `if (hasFailedOnce) break` hard-stops the wave. -/
theorem propagateWave_death_stops_counterexample :
    (propagateWave
        (fun _ t => setLastSectionWaveState (some SectionState.death) t)
        (initialState sampleBalance)).waveResults.length = 1
      ∧ (propagateWave
          (fun _ t => setLastSectionWaveState (some SectionState.death) t)
          (initialState sampleBalance)).waveResults.length ≠ 3 := by
  constructor <;>
    simp [propagateWave, propagateStep, setLastSectionWaveState, initialState,
      sampleBalance]

/-- Number of sections actually processed by a propagation whose handshakes
commit `r0` for section A and `r1` for section B: the loop hard-stops after
the first `death`. -/
def firstDeathLength (r0 r1 : Option SectionState) : ℕ :=
  if r0 = some SectionState.death then 1
  else if r1 = some SectionState.death then 2
  else 3

/-- C3 amended: for a propagation started with the guard clear, against any
collaborator that commits classification `resp i` for section `i` (and, like
the real scene, never touches `waveResults` itself), the results sequence
gets one entry per processed section only — 3 when no section before the
last classifies as `death`, otherwise the index of the first `death` plus
one, because `if (hasFailedOnce) break` stops the loop. -/
theorem propagateWave_results_length (env : ℕ → WMState → WMState)
    (resp : ℕ → Option SectionState) (s : WMState)
    (hp : s.propagating = false)
    (hres : ∀ i t, (env i t).waveResults = t.waveResults)
    (hresp : ∀ i t, (env i t).lastSectionWaveState = resp i) :
    (propagateWave env s).waveResults.length
      = firstDeathLength (resp 0) (resp 1) := by
  rcases h0 : resp 0 with _ | (_ | _ | _) <;>
  rcases h1 : resp 1 with _ | (_ | _ | _) <;>
  rcases h2 : resp 2 with _ | (_ | _ | _) <;>
  simp [propagateWave, propagateStep, firstDeathLength, hp, hres, hresp,
    h0, h1, h2]

/-- Witness for the amended C3: the scene classifies A as `success` and B as
`death`; exactly two results are recorded. -/
theorem propagateWave_results_length_witness :
    (propagateWave
        (fun i t => setLastSectionWaveState
          (if i = 0 then some SectionState.success else some SectionState.death) t)
        (initialState sampleBalance)).waveResults.length = 2 := by
  have h := propagateWave_results_length
      (fun i t => setLastSectionWaveState
        (if i = 0 then some SectionState.success else some SectionState.death) t)
      (fun i => if i = 0 then some SectionState.success else some SectionState.death)
      (initialState sampleBalance) rfl (fun _ _ => rfl) (fun _ _ => rfl)
  simpa [firstDeathLength] using h

/-- Score contribution of one committed classification. -/
def winCount (r : Option SectionState) : ℤ :=
  if r = some SectionState.success then 1 else 0

/-- Number of scored sections in a propagation whose handshakes commit
`r0, r1, r2`: successes strictly before the first `death` — nothing at or
after a `death` scores. -/
def scoreGain (r0 r1 r2 : Option SectionState) : ℤ :=
  if r0 = some SectionState.death then 0
  else winCount r0 +
    (if r1 = some SectionState.death then 0
     else winCount r1 +
       (if r2 = some SectionState.death then 0 else winCount r2))

/-- C5: if some section of a propagation classifies as `death`, the
completed propagation has multiplier 1.0, and the score has grown by exactly
100 per success strictly before the first death — no +100 increment happens
at or after it, whatever the later classifications would have been.  The
collaborator is assumed, like the real scene, to act only through the
manager's public setters, which touch neither `score` nor `multiplier`. -/
theorem propagateWave_death_scoring (env : ℕ → WMState → WMState)
    (resp : ℕ → Option SectionState) (s : WMState)
    (hp : s.propagating = false)
    (hscore : ∀ i t, (env i t).score = t.score)
    (hmult : ∀ i t, (env i t).multiplier = t.multiplier)
    (hresp : ∀ i t, (env i t).lastSectionWaveState = resp i)
    (hdeath : resp 0 = some SectionState.death
      ∨ resp 1 = some SectionState.death
      ∨ resp 2 = some SectionState.death) :
    (propagateWave env s).multiplier = 1
      ∧ (propagateWave env s).score
          = s.score + 100 * scoreGain (resp 0) (resp 1) (resp 2) := by
  rcases h0 : resp 0 with _ | (_ | _ | _) <;>
  rcases h1 : resp 1 with _ | (_ | _ | _) <;>
  rcases h2 : resp 2 with _ | (_ | _ | _) <;>
  simp_all [propagateWave, propagateStep, scoreGain, winCount] <;>
  omega

/-- Witness for C5: section A succeeds, section B dies; the wave ends with
multiplier 1 and exactly one scored section. -/
theorem propagateWave_death_scoring_witness :
    (propagateWave
        (fun i t => setLastSectionWaveState
          (if i = 0 then some SectionState.success
           else if i = 1 then some SectionState.death
           else some SectionState.success) t)
        (initialState sampleBalance)).multiplier = 1
      ∧ (propagateWave
          (fun i t => setLastSectionWaveState
            (if i = 0 then some SectionState.success
             else if i = 1 then some SectionState.death
             else some SectionState.success) t)
          (initialState sampleBalance)).score = 100 := by
  have h := propagateWave_death_scoring
      (fun i t => setLastSectionWaveState
        (if i = 0 then some SectionState.success
         else if i = 1 then some SectionState.death
         else some SectionState.success) t)
      (fun i => if i = 0 then some SectionState.success
                else if i = 1 then some SectionState.death
                else some SectionState.success)
      (initialState sampleBalance) rfl (fun _ _ => rfl) (fun _ _ => rfl)
      (fun _ _ => rfl) (Or.inr (Or.inl rfl))
  simpa [scoreGain, winCount, initialState, sampleBalance] using h
